import Mathlib

/-!
A shallow embedding of the intent-routing, prompt-assembly and
conversation-state logic of the Vani voice assistant (Python sources
`src/main.py`, `src/llm_handler.py`, `src/multi_model_handler.py`,
`src/desktop_automation.py`, `src/web_search.py`), together with theorems
settling the behavioural claims about that logic.

Strings are modelled with Lean `String`; the Python `x in s` substring test,
`s.lower()`, `s.strip()`, `s.rstrip(chars)`, `s.startswith(p)` and slicing
`s[:n]` are embedded as executable functions on the underlying character
lists.  Python `str.lower()` agrees with ASCII lowering on every string the
program manipulates (the phrase tables are ASCII, Devanagari and Gujarati,
and the latter two scripts are caseless), so lowering is embedded ASCII-wise.
External collaborators (camera, process table, HTTP backends) are passed in
as explicit oracle values; everything the repository itself computes is
embedded from the source.
-/

/-- Characters that Python `str.strip()` removes at the ends (the ones relevant
to transcribed text). -/
def isPyWhitespace (c : Char) : Bool :=
  c == ' ' || c == '\t' || c == '\n' || c == '\r'

/-- ASCII lowering of one character (Python `str.lower()` over the program alphabet:
ASCII: ASCII letters lower, Devanagari/Gujarati are caseless). -/
def lowerChar (c : Char) : Char :=
  if 'A' ≤ c && c ≤ 'Z' then Char.ofNat (c.toNat + 32) else c

/-- Python `s.lower()`. -/
def lowerS (s : String) : String := ⟨s.data.map lowerChar⟩

/-- Test `startsWithL pre l`: the char list `l` starts with `pre`. -/
def startsWithL : List Char → List Char → Bool
  | [], _ => true
  | _ :: _, [] => false
  | a :: as, b :: bs => a == b && startsWithL as bs

/-- Test `containsL sub l`: `sub` occurs as a contiguous sublist of `l`
(Python `sub in l`; the empty needle always matches). -/
def containsL (sub : List Char) : List Char → Bool
  | [] => startsWithL sub []
  | c :: rest => startsWithL sub (c :: rest) || containsL sub rest

/-- Python `sub in hay` on strings. -/
def pyIn (sub hay : String) : Bool := containsL sub.data hay.data

/-- Python `s.startswith(p)`. -/
def pyStartsWith (p s : String) : Bool := startsWithL p.data s.data

/-- Python `s.strip()` (whitespace at both ends). -/
def pyStrip (s : String) : String :=
  ⟨((s.data.dropWhile isPyWhitespace).reverse.dropWhile isPyWhitespace).reverse⟩

/-- Python `s.rstrip(chars)` for a fixed character set. -/
def pyRstrip (chars : List Char) (s : String) : String :=
  ⟨(s.data.reverse.dropWhile (fun c => chars.contains c)).reverse⟩

/-- Python `s[:n]` (first `n` characters). -/
def pyTake (n : Nat) (s : String) : String := ⟨s.data.take n⟩

/-- Python `any(kw in s for kw in kws)` — the pervasive phrase-table test. -/
def anyIn (kws : List String) (s : String) : Bool := kws.any (fun kw => pyIn kw s)

/-- Python truthiness of an `Optional[str]` (`None` and `""` are falsy). -/
def truthy : Option String → Bool
  | none => false
  | some s => s ≠ ""

/-- One conversation turn (`{"role": …, "content": …, "language": …}` dict
appended to `conversation_history` in `llm_handler.py`). -/
structure Msg where
  role : String
  content : String
  language : String
deriving DecidableEq, Repr

/-! ## `main.py` — control-command classifiers (`VoiceAssistant`) -/

/-- Embedding of `VoiceAssistant._is_identity_question` (`main.py`). -/
def isIdentityQuestion (text : String) : Bool :=
  anyIn ["who are you", "what is your name", "your name",
         "तुम कौन हो", "तुम्हारा नाम क्या है",
         "તમે કોણ છો", "તમારું નામ શું છે"] (lowerS text)

/-- Embedding of `VoiceAssistant._is_exit_command` (`main.py`). -/
def isExitCommand (text : String) : Bool :=
  anyIn ["exit", "quit", "goodbye", "bye", "stop",
         "बाहर निकलें", "बंद करो", "अलविदा", "बाय",
         "બહાર નીકળો", "બંધ કરો", "અલવિદા", "બાય"] (lowerS text)

/-- Embedding of `VoiceAssistant._is_reset_command` (`main.py`). -/
def isResetCommand (text : String) : Bool :=
  anyIn ["reset", "clear history", "start over",
         "रीसेट", "इतिहास साफ़ करें",
         "રીસેટ", "ઇતિહાસ સાફ કરો"] (lowerS text)

/-! ## `multi_model_handler.py` — vision classifier and question generator -/

/-- The `explicit_triggers` phrase table of `MultiModelHandler._needs_vision`. -/
def explicitVisionTriggers : List String :=
  ["what do you see", "what can you see", "look at", "describe what you see",
   "tell me what you see", "camera", "take a look", "show me",
   "क्या दिख रहा है", "क्या देख रहा है", "क्या दीख रहा है",
   "देखो", "दिखाओ", "देख", "क्या है",
   "यह क्या है", "ये क्या है",
   "कैमरा", "कैमरे से देखो",
   "તમે શું જુઓ છો", "શું દેખાય છે", "શું જોવા મળે છે",
   "જુઓ", "દેખાવો", "શું છે",
   "આ શું છે", "એ શું છે",
   "કેમેરા", "કેમેરાથી જુઓ"]

/-- The `vision_question_patterns` table of `MultiModelHandler._needs_vision`. -/
def visionQuestionPatterns : List String :=
  ["how many people", "how many person", "who is", "who are",
   "is there a person", "are there people", "anyone here",
   "कितने लोग", "कितने व्यक्ति", "कौन है", "कोई व्यक्ति",
   "કેટલા લોકો", "કોણ છે", "કોઈ વ્યક્તિ",
   "what object", "what is on", "what is in front",
   "how many object", "count the", "objects in",
   "क्या वस्तु", "कितनी वस्तु", "कितने चीज",
   "શું વસ્તુ", "કેટલી વસ્તુ",
   "what color", "what colour", "color of",
   "क्या रंग", "रंग कैसा", "કયો રંગ", "રંગ શું",
   "where is", "where am i", "what room", "what place",
   "कहाँ है", "कहाँ हूँ", "कौन सा कमरा", "ક્યાં છે", "ક્યાં છું",
   "describe the", "describe this", "what is this",
   "tell me about this", "read this", "what does it say",
   "बताओ यह", "यह क्या", "વર્ણન કરો", "આ શું",
   "read the text", "what does it say", "read what",
   "पढ़ो", "क्या लिखा है", "વાંચો", "શું લખ્યું છે"]

/-- The `visual_nouns` table of `MultiModelHandler._needs_vision`. -/
def visualNouns : List String :=
  ["person", "people", "face", "man", "woman",
   "object", "thing", "item",
   "room", "wall", "door", "window",
   "व्यक्ति", "लोग", "वस्तु", "कमरा", "दीवार",
   "લોકો", "વસ્તુ", "રૂમ", "દિવાલ"]

/-- The `question_words` table of `MultiModelHandler._needs_vision`. -/
def visionQuestionWords : List String :=
  ["what", "how many", "which", "where", "is there",
   "क्या", "कितने", "कहाँ", "કયું", "કેટલા", "ક્યાં"]

/-- The `vision_verbs` table of `MultiModelHandler._needs_vision`. -/
def visionVerbs : List String :=
  ["see", "look", "watch", "view", "show",
   "देख", "दिख", "दीख", "दिखा", "देखो",
   "જુઓ", "જોવું", "દેખાવો"]

/-- Embedding of `MultiModelHandler._needs_vision`: vision-need classifier over the
lowercased command (explicit triggers, question patterns, question word +
visual noun, and finally vision verb + question mark or question word). -/
def needsVision (command : String) : Bool :=
  let cmd := lowerS command
  if anyIn explicitVisionTriggers cmd then true
  else if anyIn visionQuestionPatterns cmd then true
  else if anyIn visionQuestionWords cmd && anyIn visualNouns cmd then true
  else if anyIn visionVerbs cmd &&
          (pyIn "?" cmd || anyIn ["what", "क्या", "કયું", "કેમ"] cmd) then true
  else false

/-- Embedding of `MultiModelHandler._generate_vision_question`:
the prioritized chain of phrase-set checks over the lowercased command,
then the question-word fallback, then the generic describe-everything
prompt.  Embedded clause by clause from the source. -/
def genVisionQuestion (command : String) : String :=
  let cmd := lowerS command
  if anyIn ["time", "clock", "watch", "समय", "घड़ी", "સમય", "ઘડિયાળ"] cmd then
    "What time is shown on any clock, watch, or time display visible in this image? Read the exact time."
  else if anyIn ["how many people", "how many person", "कितने लोग", "કેટલા લોકો"] cmd then
    "How many people are in this image? Count them carefully."
  else if anyIn ["who is", "who are", "कौन है", "કોણ છે"] cmd then
    "Describe the people in this image. Who do you see?"
  else if anyIn ["how many object", "count", "कितने", "કેટલા"] cmd then
    "Count and list all the objects you can see in this image."
  else if anyIn ["what color", "what colour", "रंग", "રંગ"] cmd then
    "What colors do you see in this image? Describe them in detail."
  else if anyIn ["where am i", "what room", "what place", "कहाँ", "ક્યાં"] cmd then
    "Describe this location. What kind of room or place is this? What can you see?"
  else if anyIn ["read", "text", "written", "पढ़", "लिखा", "વાંચ", "લખ્યું"] cmd then
    "Read all the text visible in this image. What does it say?"
  else if anyIn ["what is this", "what is on", "what is in"] cmd then
    "Describe the main object or item in this image in detail."
  else if anyIn ["weather", "temperature", "मौसम", "હવામાન"] cmd then
    "If there\x27s a weather display or temperature reading visible, what does it show?"
  else if anyIn ["price", "cost", "how much", "कीमत", "કિંમત"] cmd then
    "If there are any prices or monetary values visible, what are they?"
  else if anyIn ["screen", "monitor", "display", "phone", "स्क्रीन", "સ્ક્રીન"] cmd then
    "What is displayed on the screen or monitor in this image? Describe what you see."
  else if anyIn ["sign", "label", "साइन", "લેબલ"] cmd then
    "What signs, labels, or text are visible in this image? Read them."
  else if anyIn ["what do you see", "what can you see", "describe",
                 "दिख रहा", "देख रहा", "જુઓ છો"] cmd then
    "Describe everything visible in this image in detail - including people, objects, text, numbers, colors, and any information displayed."
  else
    let question := pyStrip command
    if (["what", "how", "where", "when", "why", "who", "which",
         "क्या", "कैसे", "कहाँ", "कब", "क्यों", "कौन",
         "શું", "કેમ", "ક્યાં", "ક્યારે", "કેમ", "કોણ"].any
          (fun qw => pyStartsWith qw (lowerS question))) then
      "Answer this question about the image: " ++ question
    else
      "Describe everything you see in this image in detail, including any text, numbers, people, objects, colors, and the setting. Be specific and thorough."

/-- The same prioritized trigger table written as first-class data, in
source order: each entry pairs the trigger-phrase set with the specialized
prompt it selects.  Used to state the claim that the generator is a
top-to-bottom first-match table lookup. -/
def visionQTable : List (List String × String) :=
  [(["time", "clock", "watch", "समय", "घड़ी", "સમય", "ઘડિયાળ"],
    "What time is shown on any clock, watch, or time display visible in this image? Read the exact time."),
   (["how many people", "how many person", "कितने लोग", "કેટલા લોકો"],
    "How many people are in this image? Count them carefully."),
   (["who is", "who are", "कौन है", "કોણ છે"],
    "Describe the people in this image. Who do you see?"),
   (["how many object", "count", "कितने", "કેટલા"],
    "Count and list all the objects you can see in this image."),
   (["what color", "what colour", "रंग", "રંગ"],
    "What colors do you see in this image? Describe them in detail."),
   (["where am i", "what room", "what place", "कहाँ", "ક્યાં"],
    "Describe this location. What kind of room or place is this? What can you see?"),
   (["read", "text", "written", "पढ़", "लिखा", "વાંચ", "લખ્યું"],
    "Read all the text visible in this image. What does it say?"),
   (["what is this", "what is on", "what is in"],
    "Describe the main object or item in this image in detail."),
   (["weather", "temperature", "मौसम", "હવામાન"],
    "If there\x27s a weather display or temperature reading visible, what does it show?"),
   (["price", "cost", "how much", "कीमत", "કિંમત"],
    "If there are any prices or monetary values visible, what are they?"),
   (["screen", "monitor", "display", "phone", "स्क्रीन", "સ્ક્રીન"],
    "What is displayed on the screen or monitor in this image? Describe what you see."),
   (["sign", "label", "साइन", "લેબલ"],
    "What signs, labels, or text are visible in this image? Read them."),
   (["what do you see", "what can you see", "describe",
     "दिख रहा", "देख रहा", "જુઓ છો"],
    "Describe everything visible in this image in detail - including people, objects, text, numbers, colors, and any information displayed.")]

/-- The recognized question words of the generator fallback path. -/
def fallbackQuestionWords : List String :=
  ["what", "how", "where", "when", "why", "who", "which",
   "क्या", "कैसे", "कहाँ", "कब", "क्यों", "कौन",
   "શું", "કેમ", "ક્યાં", "ક્યારે", "કેમ", "કોણ"]

/-- First-match lookup: the specialized prompt of the first table entry one
of whose trigger phrases occurs in the lowercased command. -/
def findPrompt (cmd : String) : List (List String × String) → Option String
  | [] => none
  | e :: es => if anyIn e.1 cmd then some e.2 else findPrompt cmd es

/-- The vision-question generator as the claim describes it: first-match
lookup in the prioritized table, then the question-word wrapper forwarding
the (whitespace-stripped) utterance, then the generic describe prompt. -/
def visionQuestionSpec (command : String) : String :=
  match findPrompt (lowerS command) visionQTable with
  | some p => p
  | none =>
      let question := pyStrip command
      if fallbackQuestionWords.any (fun qw => pyStartsWith qw (lowerS question)) then
        "Answer this question about the image: " ++ question
      else
        "Describe everything you see in this image in detail, including any text, numbers, people, objects, colors, and the setting. Be specific and thorough."

/-! ## `llm_handler.py` — web-search classifiers -/

/-- Embedding of `OllamaHandler._needs_web_search`: explicit search keywords, news
keywords, time-sensitive keywords, or current-info question patterns. -/
def needsWebSearch (query : String) : Bool :=
  let q := lowerS query
  if anyIn ["search", "find", "look up", "google", "search for",
            "खोजें", "ढूंढें", "सर्च",
            "શોધો", "શોધ"] q then true
  else if anyIn ["news", "latest", "recent", "update", "happening", "today",
                 "समाचार", "ख़बर", "ताज़ा", "आज",
                 "સમાચાર", "તાજા", "આજે"] q then true
  else if anyIn ["weather", "temperature", "forecast",
                 "price", "cost", "value", "worth",
                 "stock", "market", "rate",
                 "score", "match", "game", "result",
                 "event", "concert", "show",
                 "मौसम", "तापमान", "कीमत", "स्टॉक",
                 "હવામાન", "કિંમત", "સ્ટોક"] q then true
  else if anyIn ["what is happening", "what happened", "who won", "who is",
                 "where is", "when is", "how much", "current",
                 "क्या हो रहा", "क्या हुआ", "कौन है", "वर्तमान",
                 "શું થઈ રહ્યું", "શું થયું", "કોણ છે", "વર્તમાન"] q then true
  else false

/-- Embedding of `OllamaHandler._is_knowledge_query`: factual-question patterns that make
the router try the Wikipedia adapter first. -/
def isKnowledgeQuery (query : String) : Bool :=
  anyIn ["what is", "who is", "what are", "who are",
         "tell me about", "explain", "describe",
         "definition of", "meaning of", "history of",
         "क्या है", "कौन है", "बताओ", "समझाओ",
         "શું છે", "કોણ છે", "જણાવો", "સમજાવો"] (lowerS query)

/-- The news subwords tested inside `generate_response` to pick the
news-search adapter (`is_news`). -/
def newsSubwords : List String := ["news", "latest", "recent", "समाचार", "સમાચાર"]

/-- Embedding of `is_news` as computed in `OllamaHandler.generate_response`:
web search needed and a news subword occurs in the lowercased input. -/
def isNewsQuery (query : String) : Bool :=
  needsWebSearch query && anyIn newsSubwords (lowerS query)

/-! ## Conversation log (`conversation_history` trimming) -/

/-- The history trim `if len(h) > cap: h = h[-cap:]` applied after an
append (`llm_handler.py` uses cap 20, `multi_model_handler.py` cap 10). -/
def trimHistory (cap : Nat) (h : List Msg) : List Msg :=
  if h.length > cap then h.drop (h.length - cap) else h

/-- One successful exchange as `generate_response` records it: append the
user turn then the assistant turn, then trim to the cap. -/
def appendExchange (cap : Nat) (h : List Msg) (u a : Msg) : List Msg :=
  trimHistory cap (h ++ [u, a])

/-- A sequence of successful exchanges applied in order. -/
def applyExchanges (cap : Nat) : List (Msg × Msg) → List Msg → List Msg
  | [], h => h
  | p :: ps, h => applyExchanges cap ps (appendExchange cap h p.1 p.2)

/-- The full stream of turns a sequence of exchanges would append,
in chronological order, were the log unbounded. -/
def flattenExchanges : List (Msg × Msg) → List Msg
  | [] => []
  | p :: ps => p.1 :: p.2 :: flattenExchanges ps

/-! ## `OllamaHandler._build_prompt` -/

/-- The fixed per-language system instructions of `_build_prompt`
(`language_instructions`, with the configured assistant names
`Vani` / `वाणी` / `વાણી` interpolated), and the generic fallback line for
any other language code. -/
def systemInstructionFor (language : String) : String :=
  if language == "en" then
    "You are Vani, a helpful AI voice assistant with web search capability.\nRespond ONLY in clear, natural English. Keep responses brief and conversational.\nIf web search results are provided, use them to give accurate, up-to-date information.\nCite sources when using web information."
  else if language == "hi" then
    "तुम वाणी हो, एक सहायक AI असिस्टेंट जो वेब खोज कर सकती है।\nकेवल हिंदी में जवाब दो। संक्षिप्त और स्पष्ट उत्तर दो। अंग्रेजी का प्रयोग बिल्कुल न करें।\nअगर वेब खोज परिणाम दिए गए हैं, तो उनका उपयोग करके सटीक जानकारी दें।"
  else if language == "gu" then
    "તમે વાણી છો, એક સહાયક AI આસિસ્ટન્ટ જે વેબ શોધ કરી શકે છે.\nફક્ત ગુજરાતીમાં જવાબ આપો। સંક્ષિપ્ત અને સ્પષ્ટ જવાબો આપો। અંગ્રેજીનો ઉપયોગ ન કરો।\nજો વેબ શોધ પરિણામો આપવામાં આવે છે, તો તેનો ઉપયોગ કરીને સચોટ માહિતી આપો."
  else
    "You are Vani, a helpful AI assistant with web search. Respond ONLY in " ++
      language ++ "."

/-- Python `h[-n:]` on the history list. -/
def lastN (n : Nat) (h : List Msg) : List Msg := h.drop (h.length - n)

/-- Rendering of one history message inside the prompt
(`User: …` / `Assistant: …`, each newline-terminated). -/
def renderMsg (m : Msg) : String :=
  if m.role == "user" then "User: " ++ m.content ++ "\n"
  else "Assistant: " ++ m.content ++ "\n"

/-- The history section of `_build_prompt`: iterate over the last six log
entries, emitting only those whose recorded language equals the request
language. -/
def historyBlock (msgs : List Msg) (language : String) : String :=
  msgs.foldl (fun acc m => if m.language == language then acc ++ renderMsg m else acc) ""

/-- Embedding of `OllamaHandler._build_prompt`: system instruction, optional web-context
block, language-filtered tail of the conversation history, the new user
turn, and the generation cue, concatenated in order. -/
def buildPrompt (userInput language webContext : String) (history : List Msg) : String :=
  systemInstructionFor language ++ "\n\n" ++
  (if webContext ≠ "" then
      webContext ++ "\n\nUse the above web search information to answer the question.\n\n"
    else "") ++
  historyBlock (lastN 6 history) language ++
  ("User: " ++ userInput ++ "\n") ++
  "Assistant: "

/-! ## `web_search.py` — search results and context-block formatting -/

/-- One search result as the adapters produce it (`title`, `snippet`, `url`,
optional `date`, `source`); a missing dict key is modelled as `""`,
matching Python falsiness of `result.get(…)`. -/
structure SearchResult where
  title : String
  snippet : String
  url : String
  date : String
  source : String
deriving DecidableEq, Repr

/-- The lines `format_search_results` emits for the `i`-th result (1-based):
optional title line, optional snippet line truncated to 400 characters with
a `...` suffix, optional date/source metadata line. -/
def resultParts (i : Nat) (r : SearchResult) : List String :=
  (if r.title ≠ "" then ["\n" ++ Nat.repr i ++ ". " ++ r.title] else []) ++
  (if r.snippet ≠ "" then ["   " ++ pyTake 400 r.snippet ++ "..."] else []) ++
  (let metadata := (if r.date ≠ "" then ["📅 " ++ r.date] else []) ++
                   (if r.source ≠ "" then ["📚 Source: " ++ r.source] else [])
   if metadata ≠ [] then ["   " ++ String.intercalate " | " metadata] else [])

/-- The per-result lines for a whole result list, numbering from `i`
(`enumerate(results, 1)` starts at 1). -/
def resultPartsFrom (i : Nat) : List SearchResult → List String
  | [] => []
  | r :: rs => resultParts i r ++ resultPartsFrom (i + 1) rs

/-- The language-specific header of the context block. -/
def searchHeaderFor (language : String) : String :=
  if language == "hi" then "🌐 इंटरनेट खोज परिणाम:\n"
  else if language == "gu" then "🌐 ઇન્ટરનેટ શોધ પરિણામો:\n"
  else "🌐 Search Results:\n"

/-- Embedding of `WebSearchHandler.format_search_results`: header, numbered result
entries, and the closing instruction, joined with newlines; the empty
result list yields the empty string. -/
def formatSearchResults (results : List SearchResult) (language : String) : String :=
  if results = [] then ""
  else
    String.intercalate "\n"
      (searchHeaderFor language ::
        (resultPartsFrom 1 results ++
          ["\n\n📝 Use this information to provide an accurate answer.\n"]))

/-! ## Search-strategy selection inside `generate_response` -/

/-- Which search adapter the web-augmentation phase of the router ends up
consulting. -/
inductive SearchChoice
  | newsSearch
  | wikipediaFirst
  | webSearch
  | noSearch
deriving DecidableEq, Repr

/-- The strategy selection of `generate_response`: news if `is_news`,
else Wikipedia-first if `is_knowledge`, else general web search if
`_needs_web_search`, else no search at all. -/
def searchChoice (query : String) : SearchChoice :=
  if isNewsQuery query then .newsSearch
  else if isKnowledgeQuery query then .wikipediaFirst
  else if needsWebSearch query then .webSearch
  else .noSearch

/-- The result list `generate_response` ends up holding, given the three
answers of the adapters (`newsR` from `search_news`, `wikiR` from
`_search_wikipedia`, `webR` from `search`): the Wikipedia branch falls back
to general web search exactly when no article was found. -/
def chosenResults (query : String)
    (newsR wikiR webR : List SearchResult) : List SearchResult :=
  match searchChoice query with
  | .newsSearch => newsR
  | .wikipediaFirst => if wikiR = [] then webR else wikiR
  | .webSearch => webR
  | .noSearch => []

/-- Embedding of `web_context` as `generate_response` computes it: the formatted block
when some results came back, otherwise the empty string (zero results are
not an error — augmentation is skipped). -/
def webContextOf (query language : String)
    (newsR wikiR webR : List SearchResult) : String :=
  let results := chosenResults query newsR wikiR webR
  if results ≠ [] then formatSearchResults results language else ""

/-! ## `desktop_automation.py` — command predicates and close-app logic -/

/-- The normalization at the top of `DesktopAutomation.execute`:
lowercase, strip whitespace, strip trailing `.!?,`. -/
def normalizeCmd (command : String) : String :=
  pyRstrip ['.', '!', '?', ','] (pyStrip (lowerS command))

/-- Embedding of `DesktopAutomation._has_website`: known site names plus generic
web-navigation indicators. -/
def hasWebsite (cmd : String) : Bool :=
  anyIn (["youtube", "google", "gmail", "facebook", "twitter", "github"] ++
         ["website", ".com", "browse", "visit", "go to"]) cmd

/-- Embedding of `DesktopAutomation._is_open_app`. -/
def isOpenApp (cmd : String) : Bool :=
  anyIn ["open", "launch", "start", "run"] cmd

/-- Embedding of `DesktopAutomation._is_close_app`: the close keywords are English-only. -/
def isCloseApp (cmd : String) : Bool :=
  anyIn ["close", "quit", "exit", "kill", "stop"] cmd

/-- The `proc_map` of `_close_app_sync`, in insertion order: spoken app
name ↦ process-name substring to terminate. -/
def procMap : List (String × String) :=
  [("terminal", "gnome-terminal"), ("firefox", "firefox"), ("chrome", "chrome"),
   ("files", "nautilus"), ("calculator", "gnome-calculator"),
   ("text editor", "gedit"), ("code", "code")]

/-- The target-app lookup of `_close_app_sync`: the first `proc_map` entry
whose name occurs in the normalized command. -/
def closeAppTarget (cmd : String) : Option (String × String) :=
  procMap.find? (fun p => pyIn p.1 cmd)

/-- Embedding of `_close_app_sync` given the outcome of the process scan (`killed`:
whether some process matched the process name of the target and was
terminated). -/
def closeAppSync (cmd lang : String) (killed : Bool) : String :=
  match closeAppTarget cmd with
  | some p =>
      if killed then
        if lang == "hi" then p.1 ++ " बंद कर दिया"
        else if lang == "gu" then p.1 ++ " બંધ કર્યું"
        else "Closed " ++ p.1
      else
        if lang == "hi" then p.1 ++ " चालू नहीं है"
        else if lang == "gu" then p.1 ++ " ચાલુ નથી"
        else p.1 ++ " is not running"
  | none => "I couldn\x27t find which application to close"

/-- The dispatch condition of `DesktopAutomation.execute`: one of its six
command categories matches the normalized command.  Whenever one matches,
the corresponding branch returns a (non-empty) result string, so `execute`
returns `None` exactly when this predicate is false. -/
def desktopMatched (cmd : String) : Bool :=
  hasWebsite cmd || isOpenApp cmd || isCloseApp cmd ||
  pyIn "screenshot" cmd || pyIn "battery" cmd || pyIn "system" cmd ||
  pyIn "volume" cmd

/-! ## Router dispatch order -/

/-- The routing category an utterance ends up in: the first four are
decided by the main loop (`VoiceAssistant.run`), the rest inside
`OllamaHandler.generate_response`. -/
inductive Intent
  | identity
  | exitCmd
  | resetCmd
  | vision
  | desktop
  | chat
deriving DecidableEq, Repr

/-- The dispatch order of `generate_response` itself: vision first
(`process_vision_command` returns a non-`None`, non-empty string exactly
when `_needs_vision` holds), then desktop (`execute` returns non-`None`
exactly when one of its categories matches), then the web-augmented LLM
chat path. -/
def routerDispatch (text : String) : Intent :=
  if needsVision text then .vision
  else if desktopMatched (normalizeCmd text) then .desktop
  else .chat

/-- The end-to-end dispatch of one transcribed utterance: the main loop
checks identity, exit and reset (in that order) before handing the text to
`generate_response`, which checks vision, then desktop, then falls through
to the chat path. -/
def mainDispatch (text : String) : Intent :=
  if isIdentityQuestion text then .identity
  else if isExitCommand text then .exitCmd
  else if isResetCommand text then .resetCmd
  else routerDispatch text

/-! ## `MultiModelHandler.generate_with_vision_context` — prompt assembly -/

/-- The system instruction of `generate_with_vision_context`. -/
def visionSysInstr (language : String) : String :=
  if language == "hi" then "तुम एक सहायक AI हो जो दृश्य जानकारी को समझ सकता है।\n\n"
  else if language == "gu" then "તમે એક સહાયક AI છો જે દ્રશ્ય માહિતી સમજી શકે છે.\n\n"
  else "You are a helpful AI assistant with access to visual information.\n\n"

/-- The vision-description block injected into the prompt exactly when a
context is stored (truthy) and was captured strictly less than 60 seconds
before `now` (`time.time() - self.last_vision_time < 60`; time is modelled
in whole seconds, and capture never postdates the request). -/
def visionContextBlock (ctx : Option String) (lastVisionTime now : Nat)
    (language : String) : String :=
  match ctx with
  | none => ""
  | some vc =>
      if vc ≠ "" && now - lastVisionTime < 60 then
        if language == "hi" then "दृश्य जानकारी (कैमरा): " ++ vc ++ "\n\n"
        else if language == "gu" then "દ્રશ્ય માહિતી (કેમેરા): " ++ vc ++ "\n\n"
        else "Visual information (from camera): " ++ vc ++ "\n\n"
      else ""

/-- The prompt `generate_with_vision_context` assembles: system instruction,
the vision block when fresh, the last four history turns (no language
filter here), the new user turn and the generation cue. -/
def visionPrompt (userInput language : String) (ctx : Option String)
    (lastVisionTime now : Nat) (history : List Msg) : String :=
  visionSysInstr language ++
  visionContextBlock ctx lastVisionTime now language ++
  (lastN 4 history).foldl (fun acc m => acc ++ renderMsg m) "" ++
  ("User: " ++ userInput ++ "\n") ++
  "Assistant: "

/-! ## One assistant turn: state, oracles, adapter calls -/

/-- The mutable state the routing layer owns: conversation log and current language of the LLM handler, and the
single-slot vision context of the multi-model handler with its capture time. -/
structure AssistantState where
  history : List Msg
  currentLanguage : String
  visionContext : Option String
  lastVisionTime : Nat
deriving DecidableEq, Repr

/-- The external side-effecting operations a turn can perform (backend
adapters; text-to-speech is not one of them). -/
inductive AdapterCall
  | camera
  | llmGenerate
  | desktopAction
  | newsSearchCall
  | wikipediaCall
  | webSearchCall
deriving DecidableEq, Repr

/-- Outcomes of the external collaborators consulted during one turn:
`visionDesc` is the return of `vision.see_and_describe` (`None` on camera
failure), `translation` the raw translation-LLM body (`None` when the
request raised), `killed` whether the process scan terminated a matching
process, `desktopMsg` the localized string a matched non-close desktop
branch produces around its OS effect, the three result lists the answers of the search
adapters, and `llm` the HTTP status of the completion call and
`response` body (`None` when the request raised). -/
structure Oracles where
  visionDesc : Option String
  translation : Option String
  killed : Bool
  desktopMsg : String
  newsR : List SearchResult
  wikiR : List SearchResult
  webR : List SearchResult
  llm : Option (Nat × String)
deriving DecidableEq, Repr

/-- Embedding of `MultiModelHandler._translate_vision_response` for a non-English
target: the stripped translation when the call succeeded and was non-empty,
otherwise the English text unchanged (also for any failure). -/
def translateVision (englishText : String) (translation : Option String) : String :=
  match translation with
  | none => englishText
  | some t => if pyStrip t ≠ "" then pyStrip t else englishText

/-- Embedding of `MultiModelHandler.process_vision_command` on an utterance that needs
vision: capture and describe, store the description in the vision-context
slot with the capture time, translate for Hindi/Gujarati (one extra LLM
call), and format the localized answer; on camera failure return the
localized apology and leave the state alone. -/
def processVisionCommand (language : String) (s : AssistantState) (o : Oracles)
    (now : Nat) : String × AssistantState × List AdapterCall :=
  match o.visionDesc with
  | some d =>
      if d ≠ "" then
        let s' := { s with visionContext := some d, lastVisionTime := now }
        if language == "hi" then
          ("मैं देख रहा हूं: " ++ translateVision d o.translation, s',
            [.camera, .llmGenerate])
        else if language == "gu" then
          ("હું જોઈ રહ્યો છું: " ++ translateVision d o.translation, s',
            [.camera, .llmGenerate])
        else if language == "en" then
          ("I can see: " ++ d, s', [.camera])
        else
          ("I can see: " ++ d, s', [.camera])
      else
        (if language == "hi" then "मैं कैमरा एक्सेस नहीं कर पा रहा हूं"
         else if language == "gu" then "હું કેમેરાને ઍક્સેસ કરી શકતો નથી"
         else "I cannot access the camera right now", s, [.camera])
  | none =>
      (if language == "hi" then "मैं कैमरा एक्सेस नहीं कर पा रहा हूं"
       else if language == "gu" then "હું કેમેરાને ઍક્સેસ કરી શકતો નથી"
       else "I cannot access the camera right now", s, [.camera])

/-- The adapter calls the web-augmentation phase performs for a query:
news search, or Wikipedia (falling back to web search when no article was
found), or web search, or none. -/
def searchCalls (query : String) (wikiR : List SearchResult) : List AdapterCall :=
  match searchChoice query with
  | .newsSearch => [.newsSearchCall]
  | .wikipediaFirst => [.wikipediaCall] ++ (if wikiR = [] then [.webSearchCall] else [])
  | .webSearch => [.webSearchCall]
  | .noSearch => []

/-- Embedding of `OllamaHandler.generate_response` (with `ENABLE_WEB_SEARCH = True` as
configured): set the current language, try the vision branch, then the
desktop branch, otherwise run the web-augmentation phase, build the prompt,
call the completion API once, and on a 200 status with a non-empty stripped
body append the user/assistant pair (trimmed to the 20-entry cap) — every
other outcome (exception, non-200 status, empty body) returns `None` and
leaves the log unchanged. -/
def generateResponseFull (userInput language : String) (s : AssistantState)
    (o : Oracles) (now : Nat) : Option String × AssistantState × List AdapterCall :=
  let s0 := { s with currentLanguage := language }
  if needsVision userInput then
    let r := processVisionCommand language s0 o now
    (some r.1, r.2.1, r.2.2)
  else if desktopMatched (normalizeCmd userInput) then
    (some o.desktopMsg, s0, [.desktopAction])
  else
    let calls := searchCalls userInput o.wikiR ++ [.llmGenerate]
    match o.llm with
    | none => (none, s0, calls)
    | some (status, body) =>
        if status ≠ 200 then (none, s0, calls)
        else
          let assistantResponse := pyStrip body
          let newHistory := appendExchange 20 s0.history
            (Msg.mk "user" userInput language)
            (Msg.mk "assistant" assistantResponse language)
          if assistantResponse ≠ "" then
            (some assistantResponse, { s0 with history := newHistory }, calls)
          else (none, s0, calls)

/-- The localized reset confirmation of the main loop. -/
def resetMsgFor (language : String) : String :=
  if language == "en" then "Conversation history cleared"
  else if language == "hi" then "बातचीत का इतिहास साफ़ हो गया"
  else if language == "gu" then "વાતચીત ઇતિહાસ સાફ થયો"
  else "Conversation history cleared"

/-- The localized goodbye of the exit branch of the main loop. -/
def goodbyeFor (language : String) : String :=
  if language == "en" then "Goodbye! Vani signing off."
  else if language == "hi" then "अलविदा! वाणी विदा ले रही है।"
  else if language == "gu" then "આવજો! વાણી જતી રહી છે."
  else "Goodbye!"

/-- The localized self-introduction of `VoiceAssistant._introduce`. -/
def introFor (language : String) : String :=
  if language == "hi" then
    "मैं वाणी हूं, आपकी बहुभाषी AI आवाज सहायक। मैं अंग्रेजी, हिंदी और गुजराती में आपकी मदद कर सकती हूं!"
  else if language == "gu" then
    "હું વાણી છું, તમારી બહુભાષી AI વૉઇસ આસિસ્ટન્ટ. હું અંગ્રેજી, હિન્દી અને ગુજરાતીમાં તમારી મદદ કરી શકું છું!"
  else
    "I am Vani, your multilingual AI voice assistant. I can help you in English, Hindi, and Gujarati!"

/-- One iteration of the main loop after transcription
(`VoiceAssistant.run`): identity, exit and reset are handled in the loop
itself — the reset branch clears the conversation log via
`reset_conversation` (and nothing else) — and every other utterance goes
to `generate_response`.  Returns the spoken text, the new state, and the
backend-adapter calls performed. -/
def runTurn (text language : String) (s : AssistantState) (o : Oracles)
    (now : Nat) : Option String × AssistantState × List AdapterCall :=
  match mainDispatch text with
  | .identity => (some (introFor language), s, [])
  | .exitCmd => (some (goodbyeFor language), s, [])
  | .resetCmd =>
      (some (resetMsgFor language),
       { s with history := [], currentLanguage := "en" }, [])
  | _ => generateResponseFull text language s o now

/-! **Shared helper lemmas** -/

/-- The log append-and-trim never grows the log past the cap. -/
theorem appendExchange_length_le (cap : Nat) (h : List Msg) (u a : Msg)
    (hh : h.length ≤ cap) : (appendExchange cap h u a).length ≤ cap := by
  unfold appendExchange trimHistory
  split
  · simp only [List.length_drop, List.length_append, List.length_cons,
      List.length_nil]
    omega
  · rename_i hc
    simp only [gt_iff_lt, not_lt] at hc
    exact hc

/-- Once the log has reached the cap, append-and-trim keeps it there. -/
theorem appendExchange_length_eq (cap : Nat) (h : List Msg) (u a : Msg)
    (hh : h.length = cap) : (appendExchange cap h u a).length = cap := by
  unfold appendExchange trimHistory
  split
  · simp only [List.length_drop, List.length_append, List.length_cons,
      List.length_nil]
    omega
  · rename_i hc
    simp only [gt_iff_lt, not_lt, List.length_append, List.length_cons,
      List.length_nil] at hc ⊢
    omega

/-- Append-and-trim only ever discards a prefix: the result is a suffix of
the stream `log ++ [user, assistant]`. -/
theorem appendExchange_suffix (cap : Nat) (h : List Msg) (u a : Msg) :
    appendExchange cap h u a <:+ h ++ [u, a] := by
  unfold appendExchange trimHistory
  split
  · exact List.drop_suffix _ _
  · exact List.suffix_refl _

theorem applyExchanges_length_le (cap : Nat) (ps : List (Msg × Msg)) :
    ∀ h : List Msg, h.length ≤ cap → (applyExchanges cap ps h).length ≤ cap := by
  induction ps with
  | nil => intro h hh; simpa [applyExchanges] using hh
  | cons p ps ih =>
      intro h hh
      exact ih _ (appendExchange_length_le cap h p.1 p.2 hh)

theorem applyExchanges_length_eq (cap : Nat) (ps : List (Msg × Msg)) :
    ∀ h : List Msg, h.length = cap → (applyExchanges cap ps h).length = cap := by
  induction ps with
  | nil => intro h hh; simpa [applyExchanges] using hh
  | cons p ps ih =>
      intro h hh
      exact ih _ (appendExchange_length_eq cap h p.1 p.2 hh)

theorem applyExchanges_suffix (cap : Nat) (ps : List (Msg × Msg)) :
    ∀ h : List Msg, applyExchanges cap ps h <:+ h ++ flattenExchanges ps := by
  induction ps with
  | nil => intro h; simp [applyExchanges, flattenExchanges]
  | cons p ps ih =>
      intro h
      have h1 : applyExchanges cap (p :: ps) h =
          applyExchanges cap ps (appendExchange cap h p.1 p.2) := rfl
      rw [h1]
      refine (ih (appendExchange cap h p.1 p.2)).trans ?_
      obtain ⟨r, hr⟩ := appendExchange_suffix cap h p.1 p.2
      refine ⟨r, ?_⟩
      rw [← List.append_assoc, hr]
      simp [flattenExchanges]

theorem applyExchanges_fills_cap (cap : Nat) (ps : List (Msg × Msg)) :
    ∀ h : List Msg, h.length ≤ cap →
      (h ++ flattenExchanges ps).length > cap →
      (applyExchanges cap ps h).length = cap := by
  induction ps with
  | nil =>
      intro h hh hl
      simp [flattenExchanges] at hl
      omega
  | cons p ps ih =>
      intro h hh hl
      have h1 : applyExchanges cap (p :: ps) h =
          applyExchanges cap ps (appendExchange cap h p.1 p.2) := rfl
      rw [h1]
      by_cases hcap : h.length + 2 > cap
      · have he : (appendExchange cap h p.1 p.2).length = cap := by
          unfold appendExchange trimHistory
          split
          · simp only [List.length_drop, List.length_append, List.length_cons,
              List.length_nil]
            omega
          · rename_i hc
            simp only [gt_iff_lt, not_lt, List.length_append, List.length_cons,
              List.length_nil] at hc ⊢
            omega
        exact applyExchanges_length_eq cap ps _ he
      · have he : (appendExchange cap h p.1 p.2) = h ++ [p.1, p.2] := by
          unfold appendExchange trimHistory
          split
          · rename_i hc
            simp only [gt_iff_lt, List.length_append, List.length_cons,
              List.length_nil] at hc
            omega
          · rfl
        rw [he]
        refine ih _ ?_ ?_
        · simp only [List.length_append, List.length_cons, List.length_nil]
          omega
        · simp only [List.length_append, flattenExchanges, List.length_cons] at hl ⊢
          omega

/-! **Claim theorems** -/

/-- C3.  Conversation-log cap and FIFO eviction: starting from an empty
log, after any sequence of recorded exchanges the log never exceeds the
configured cap; it is a suffix of the full chronological stream of appended
turns (so the surviving entries keep their original order and exactly the
oldest ones have been discarded); and once more turns than the cap have
been appended, the length of the log equals the cap.  `llm_handler.py` uses
cap 20, `multi_model_handler.py` cap 10; the statement covers any cap. -/
theorem conversationLog_cap_fifo (cap : Nat) (ps : List (Msg × Msg)) :
    (applyExchanges cap ps []).length ≤ cap ∧
    applyExchanges cap ps [] <:+ flattenExchanges ps ∧
    ((flattenExchanges ps).length > cap → (applyExchanges cap ps []).length = cap) := by
  refine ⟨applyExchanges_length_le cap ps [] (by simp), ?_, ?_⟩
  · simpa using applyExchanges_suffix cap ps []
  · intro hl
    exact applyExchanges_fills_cap cap ps [] (by simp) (by simpa using hl)

/-- C3 witness: with cap 20 and eleven recorded exchanges (22 turns), the
log ends up with exactly 20 entries. -/
theorem conversationLog_cap_fifo_witness :
    (flattenExchanges (List.replicate 11 (Msg.mk "user" "hi" "en",
        Msg.mk "assistant" "hello" "en"))).length > 20 ∧
    (applyExchanges 20 (List.replicate 11 (Msg.mk "user" "hi" "en",
        Msg.mk "assistant" "hello" "en")) []).length = 20 :=
  ⟨by decide,
   (conversationLog_cap_fifo 20 (List.replicate 11 (Msg.mk "user" "hi" "en",
      Msg.mk "assistant" "hello" "en"))).2.2 (by decide)⟩

/-- C1 counterexample.  For the utterance "बंद करो टर्मिनल" the desktop
close predicate is NOT true — `_is_close_app` knows only the English
keywords close/quit/exit/kill/stop — and the utterance is dispatched to the
exit branch of the main loop (because "बंद करो" is in the exit-word list), not
to the desktop close handler, so the process-termination routine is never
invoked. -/
theorem closeTerminal_close_predicate_false :
    isCloseApp (normalizeCmd "बंद करो टर्मिनल") = false ∧
    mainDispatch "बंद करो टर्मिनल" = Intent.exitCmd ∧
    Intent.exitCmd ≠ Intent.desktop := by
  refine ⟨by decide, by decide, by decide⟩

/-- C1 as amended.  "बंद करो टर्मिनल" matches the exit predicate of the main
loop ("बंद करो" is an exit word), so whatever the state and backend
outcomes, the turn speaks the localized goodbye and performs no backend
adapter call; the desktop close predicate is false for this utterance and
its target lookup finds no app (the `proc_map` names are English), so the
process-termination routine could not have been reached with target
"terminal". -/
theorem closeTerminal_handled_as_exit :
    ∀ (lang : String) (s : AssistantState) (o : Oracles) (now : Nat),
      isExitCommand "बंद करो टर्मिनल" = true ∧
      isCloseApp (normalizeCmd "बंद करो टर्मिनल") = false ∧
      closeAppTarget (normalizeCmd "बंद करो टर्मिनल") = none ∧
      runTurn "बंद करो टर्मिनल" lang s o now = (some (goodbyeFor lang), s, []) := by
  intro lang s o now
  have hd : mainDispatch "बंद करो टर्मिनल" = Intent.exitCmd := by decide
  exact ⟨by decide, by decide, by decide, by rw [runTurn, hd]⟩

/-- C2 counterexample.  Handling the utterance "reset" clears the
conversation log but does NOT clear the vision-context slot: with a stored
description and capture time, both survive the reset unchanged (the main
loop only calls `reset_conversation`; `clear_vision_context` has no caller). -/
theorem reset_does_not_clear_vision_context :
    ((runTurn "reset" "en"
        (AssistantState.mk [Msg.mk "user" "hi" "en", Msg.mk "assistant" "hello" "en"]
          "en" (some "a red cup on the desk") 5)
        (Oracles.mk none none false "" [] [] [] none) 100).2.1).history = [] ∧
    ((runTurn "reset" "en"
        (AssistantState.mk [Msg.mk "user" "hi" "en", Msg.mk "assistant" "hello" "en"]
          "en" (some "a red cup on the desk") 5)
        (Oracles.mk none none false "" [] [] [] none) 100).2.1).visionContext =
      some "a red cup on the desk" ∧
    ((runTurn "reset" "en"
        (AssistantState.mk [Msg.mk "user" "hi" "en", Msg.mk "assistant" "hello" "en"]
          "en" (some "a red cup on the desk") 5)
        (Oracles.mk none none false "" [] [] [] none) 100).2.1).lastVisionTime = 5 := by
  refine ⟨by decide, by decide, by decide⟩

/-- C2 as amended.  On any utterance the main loop classifies as a reset
(and not as identity or exit), the turn empties the conversation log,
resets the current language, speaks the localized confirmation, and calls
no backend adapter — but it leaves the vision-context slot (description
and capture timestamp) untouched. -/
theorem reset_clears_log_only :
    ∀ (text lang : String) (s : AssistantState) (o : Oracles) (now : Nat),
      isIdentityQuestion text = false →
      isExitCommand text = false →
      isResetCommand text = true →
      runTurn text lang s o now =
        (some (resetMsgFor lang),
         AssistantState.mk [] "en" s.visionContext s.lastVisionTime, []) := by
  intro text lang s o now h1 h2 h3
  have hd : mainDispatch text = Intent.resetCmd := by
    unfold mainDispatch
    rw [h1, h2, h3]
    rfl
  rw [runTurn, hd]

/-- C2 witness: the amended reset theorem applied to the concrete utterance
"reset" with a populated state. -/
theorem reset_clears_log_only_witness :
    isIdentityQuestion "reset" = false ∧ isExitCommand "reset" = false ∧
    isResetCommand "reset" = true ∧
    runTurn "reset" "hi"
        (AssistantState.mk [Msg.mk "user" "hi" "en"] "en" (some "a desk") 7)
        (Oracles.mk none none false "" [] [] [] none) 42 =
      (some (resetMsgFor "hi"), AssistantState.mk [] "en" (some "a desk") 7, []) :=
  ⟨by decide, by decide, by decide,
   reset_clears_log_only "reset" "hi"
     (AssistantState.mk [Msg.mk "user" "hi" "en"] "en" (some "a desk") 7)
     (Oracles.mk none none false "" [] [] [] none) 42
     (by decide) (by decide) (by decide)⟩

/-- C4.  On the LLM chat path (vision and desktop predicates false), the
conversation log is extended exactly when the completion call yields status
200 with a non-empty stripped `response` body: in that case the result is
that body and the log gains precisely the chronological pair (user turn,
assistant turn), both tagged with the request language (then trimmed to the
20-entry cap); on an exception, a non-200 status, or an empty stripped
body, the call returns `None` and the log is unchanged. -/
theorem generateResponse_appends_iff_success :
    ∀ (userInput language : String) (s : AssistantState) (o : Oracles) (now : Nat),
      needsVision userInput = false →
      desktopMatched (normalizeCmd userInput) = false →
      (∀ body, o.llm = some (200, body) → pyStrip body ≠ "" →
        (generateResponseFull userInput language s o now).1 = some (pyStrip body) ∧
        (generateResponseFull userInput language s o now).2.1.history =
          appendExchange 20 s.history (Msg.mk "user" userInput language)
            (Msg.mk "assistant" (pyStrip body) language)) ∧
      (o.llm = none →
        (generateResponseFull userInput language s o now).1 = none ∧
        (generateResponseFull userInput language s o now).2.1.history = s.history) ∧
      (∀ status body, o.llm = some (status, body) → status ≠ 200 →
        (generateResponseFull userInput language s o now).1 = none ∧
        (generateResponseFull userInput language s o now).2.1.history = s.history) ∧
      (∀ body, o.llm = some (200, body) → pyStrip body = "" →
        (generateResponseFull userInput language s o now).1 = none ∧
        (generateResponseFull userInput language s o now).2.1.history = s.history) := by
  intro userInput language s o now hv hdk
  refine ⟨?_, ?_, ?_, ?_⟩
  · intro body hllm hne
    simp [generateResponseFull, hv, hdk, hllm, hne]
  · intro hllm
    simp [generateResponseFull, hv, hdk, hllm]
  · intro status body hllm hst
    simp [generateResponseFull, hv, hdk, hllm, hst]
  · intro body hllm hemp
    simp [generateResponseFull, hv, hdk, hllm, hemp]

/-- C4 witness: a plain conversational utterance with a successful
completion extends the log by the user/assistant pair; the same utterance
with a failing call leaves it empty. -/
theorem generateResponse_appends_iff_success_witness :
    needsVision "tell me a joke" = false ∧
    desktopMatched (normalizeCmd "tell me a joke") = false ∧
    (generateResponseFull "tell me a joke" "en"
        (AssistantState.mk [] "en" none 0)
        (Oracles.mk none none false "" [] [] [] (some (200, "sure"))) 0).2.1.history =
      appendExchange 20 [] (Msg.mk "user" "tell me a joke" "en")
        (Msg.mk "assistant" (pyStrip "sure") "en") :=
  ⟨by decide, by decide,
   ((generateResponse_appends_iff_success "tell me a joke" "en"
       (AssistantState.mk [] "en" none 0)
       (Oracles.mk none none false "" [] [] [] (some (200, "sure"))) 0
       (by decide) (by decide)).1 "sure" rfl (by decide)).2⟩

/-- Folding the conditional history renderer from any accumulator prepends
the accumulator to the block built from the empty string. -/
theorem historyBlock_acc (msgs : List Msg) (lang : String) :
    ∀ acc : String,
      msgs.foldl (fun a m => if m.language == lang then a ++ renderMsg m else a) acc =
        acc ++ historyBlock msgs lang := by
  induction msgs with
  | nil => intro acc; simp [historyBlock]
  | cons m ms ih =>
      intro acc
      simp only [historyBlock, List.foldl_cons] at *
      by_cases hm : (m.language == lang) = true
      · rw [if_pos hm, if_pos hm, ih, ih (("" : String) ++ renderMsg m)]
        rw [show ("" : String) ++ renderMsg m = renderMsg m from rfl,
          String.append_assoc]
      · rw [if_neg hm, if_neg hm, ih]

/-- The conditional rendering loop of `_build_prompt` emits exactly the
language-matching entries: filtering first changes nothing. -/
theorem historyBlock_eq_filter (msgs : List Msg) (lang : String) :
    historyBlock msgs lang =
      historyBlock (msgs.filter (fun m => m.language == lang)) lang := by
  induction msgs with
  | nil => rfl
  | cons m ms ih =>
      by_cases hm : (m.language == lang) = true
      · simp only [historyBlock, List.foldl_cons, List.filter_cons, hm, if_pos]
        rw [historyBlock_acc, historyBlock_acc, ih]
      · simp only [historyBlock, List.foldl_cons, List.filter_cons, hm,
          if_neg, Bool.false_eq_true, if_false]
        simp only [historyBlock] at ih
        exact ih

/-- Slicing `h[-n:]` is the identity on lists of length at most `n`. -/
theorem lastN_of_length_le (n : Nat) (l : List Msg) (hl : l.length ≤ n) :
    lastN n l = l := by
  unfold lastN
  rw [Nat.sub_eq_zero_of_le hl, List.drop_zero]

/-- Slicing `h[-n:]` has length at most `n`. -/
theorem lastN_length_le (n : Nat) (l : List Msg) : (lastN n l).length ≤ n := by
  unfold lastN
  simp only [List.length_drop]
  omega

set_option maxRecDepth 100000 in
/-- C5 counterexample.  A log holding six English entries followed by one
Hindi entry has at least six entries in the request language "en", yet the
assembled prompt omits the sixth-most-recent English entry (content
"zzq1") entirely: `_build_prompt` slices the last six entries of the whole
log first and only then filters by language, so the Hindi entry crowds out
an English one.  (The next-older English entry "zzq2" does appear, showing
included history is visible in the prompt.) -/
theorem buildPrompt_misses_sixth_english_entry :
    (([Msg.mk "user" "zzq1" "en", Msg.mk "assistant" "zzq2" "en",
       Msg.mk "user" "zzq3" "en", Msg.mk "assistant" "zzq4" "en",
       Msg.mk "user" "zzq5" "en", Msg.mk "assistant" "zzq6" "en",
       Msg.mk "user" "नमस्ते" "hi"] : List Msg).filter
         (fun m => m.language == "en")).length ≥ 6 ∧
    pyIn "zzq1" (buildPrompt "hello" "en" ""
      [Msg.mk "user" "zzq1" "en", Msg.mk "assistant" "zzq2" "en",
       Msg.mk "user" "zzq3" "en", Msg.mk "assistant" "zzq4" "en",
       Msg.mk "user" "zzq5" "en", Msg.mk "assistant" "zzq6" "en",
       Msg.mk "user" "नमस्ते" "hi"]) = false ∧
    pyIn "zzq2" (buildPrompt "hello" "en" ""
      [Msg.mk "user" "zzq1" "en", Msg.mk "assistant" "zzq2" "en",
       Msg.mk "user" "zzq3" "en", Msg.mk "assistant" "zzq4" "en",
       Msg.mk "user" "zzq5" "en", Msg.mk "assistant" "zzq6" "en",
       Msg.mk "user" "नमस्ते" "hi"]) = true := by
  refine ⟨by decide, by decide, by decide⟩

/-- C5 as amended.  The prompt assembler includes, as conversation history,
exactly the language-matching entries among the last six log entries
overall (entries in other languages among those six are skipped, not
translated): the assembled prompt is unchanged if the log is replaced by
the language-filtered tail of its last six entries.  Fewer than six
same-language entries may therefore appear even when the log holds six or
more entries in the request language. -/
theorem buildPrompt_uses_filtered_last_six :
    ∀ (userInput language webContext : String) (history : List Msg),
      buildPrompt userInput language webContext history =
        buildPrompt userInput language webContext
          ((lastN 6 history).filter (fun m => m.language == language)) := by
  intro u lang w hist
  unfold buildPrompt
  have h1 : lastN 6 ((lastN 6 hist).filter (fun m => m.language == lang)) =
      (lastN 6 hist).filter (fun m => m.language == lang) :=
    lastN_of_length_le 6 _
      (le_trans (List.length_filter_le _ _) (lastN_length_le 6 hist))
  rw [h1, ← historyBlock_eq_filter]

/-- A concatenation starting with a non-empty string is non-empty. -/
theorem append3_ne_empty (p d q : String) (hp : p.data ≠ []) : p ++ d ++ q ≠ "" := by
  intro h
  have h2 : (p ++ d ++ q).data = ("" : String).data := congrArg String.data h
  simp only [String.data_append] at h2
  exact hp (List.append_eq_nil.mp (List.append_eq_nil.mp h2).1).1

/-- C6.  Vision-context freshness: for any stored (non-empty) description
captured at time `T`, the prompt assembled for a request at `T + 59`
seconds contains the vision-description block between the system
instruction and the rest of the prompt, while the prompt assembled at
`T + 61` seconds is exactly the same prompt without the block — the
freshness window is `now - capture < 60`. -/
theorem visionContext_freshness_window :
    ∀ (T : Nat) (d userInput lang : String) (history : List Msg), d ≠ "" →
      ∃ tail : String,
        visionPrompt userInput lang (some d) T (T + 59) history =
          visionSysInstr lang ++ (visionContextBlock (some d) T (T + 59) lang ++ tail) ∧
        visionContextBlock (some d) T (T + 59) lang ≠ "" ∧
        visionPrompt userInput lang (some d) T (T + 61) history =
          visionSysInstr lang ++ tail := by
  intro T d u lang hist hd
  refine ⟨(lastN 4 hist).foldl (fun acc m => acc ++ renderMsg m) "" ++
      ("User: " ++ u ++ "\n") ++ "Assistant: ", ?_, ?_, ?_⟩
  · simp [visionPrompt, String.append_assoc]
  · unfold visionContextBlock
    rw [Nat.add_sub_cancel_left]
    have hc : (decide ¬d = "" && decide (59 < 60)) = true := by
      simp [hd]
    simp only [ne_eq, hc, if_true]
    split
    · exact append3_ne_empty _ d "\n\n" (by decide)
    · split
      · exact append3_ne_empty _ d "\n\n" (by decide)
      · exact append3_ne_empty _ d "\n\n" (by decide)
  · have h61 : visionContextBlock (some d) T (T + 61) lang = "" := by
      unfold visionContextBlock
      rw [Nat.add_sub_cancel_left]
      simp
    simp [visionPrompt, h61, String.append_assoc]

/-- C6 witness: the freshness theorem at a concrete capture time and
description. -/
theorem visionContext_freshness_window_witness :
    ("a cat" : String) ≠ "" ∧
    ∃ tail : String,
      visionPrompt "ok" "en" (some "a cat") 100 (100 + 59) [] =
        visionSysInstr "en" ++ (visionContextBlock (some "a cat") 100 (100 + 59) "en" ++ tail) ∧
      visionContextBlock (some "a cat") 100 (100 + 59) "en" ≠ "" ∧
      visionPrompt "ok" "en" (some "a cat") 100 (100 + 61) [] =
        visionSysInstr "en" ++ tail :=
  ⟨by decide, visionContext_freshness_window 100 "a cat" "ok" "en" [] (by decide)⟩

/-- Replacing the snippet of a result by its first 400 characters — the portion
`format_search_results` actually uses. -/
def truncateSnippet (r : SearchResult) : SearchResult :=
  { r with snippet := pyTake 400 r.snippet }

/-- Truncating a snippet to 400 characters is invisible to the per-result
lines of the formatter. -/
theorem resultParts_truncate (i : Nat) (r : SearchResult) :
    resultParts i (truncateSnippet r) = resultParts i r := by
  unfold resultParts truncateSnippet
  have h1 : (pyTake 400 r.snippet = "") ↔ (r.snippet = "") := by
    simp [pyTake, String.ext_iff, List.take_eq_nil_iff]
  have h2 : pyTake 400 (pyTake 400 r.snippet) = pyTake 400 r.snippet := by
    simp [pyTake, List.take_take]
  simp only [h2]
  by_cases hs : r.snippet = ""
  · simp [hs, h1, pyTake]
  · simp [hs, h1.not]

theorem resultPartsFrom_truncate (results : List SearchResult) :
    ∀ i : Nat, resultPartsFrom i (results.map truncateSnippet) =
      resultPartsFrom i results := by
  induction results with
  | nil => intro i; rfl
  | cons r rs ih =>
      intro i
      simp only [List.map_cons, resultPartsFrom, resultParts_truncate, ih]

/-- The context block depends only on the first 400 characters of each
snippet. -/
theorem formatSearchResults_truncate (results : List SearchResult) (lang : String) :
    formatSearchResults (results.map truncateSnippet) lang =
      formatSearchResults results lang := by
  unfold formatSearchResults
  by_cases h : results = []
  · simp [h]
  · have hm : results.map truncateSnippet ≠ [] := by
      simpa using h
    simp only [h, hm, if_neg, resultPartsFrom_truncate]

/-- C7.  The web-augmentation phase: a news-classified query uses the
news-search adapter; otherwise a knowledge query consults Wikipedia first
and falls back to general web search exactly when no article was found;
otherwise a query needing current information uses general web search.
The adapters are invoked with `max_results = 5` (Wikipedia yields at most
one article), so the context block is built from at most five results; its
content depends only on the first 400 characters of each snippet; and zero
results are never an error — the web context is simply the empty string,
so the prompt is built without a search block. -/
theorem searchStrategy_spec :
    ∀ (query lang : String) (newsR wikiR webR : List SearchResult),
      (isNewsQuery query = true →
        chosenResults query newsR wikiR webR = newsR) ∧
      (isNewsQuery query = false → isKnowledgeQuery query = true →
        chosenResults query newsR wikiR webR = if wikiR = [] then webR else wikiR) ∧
      (isNewsQuery query = false → isKnowledgeQuery query = false →
        needsWebSearch query = true →
        chosenResults query newsR wikiR webR = webR) ∧
      (newsR.length ≤ 5 → wikiR.length ≤ 1 → webR.length ≤ 5 →
        (chosenResults query newsR wikiR webR).length ≤ 5) ∧
      (chosenResults query newsR wikiR webR = [] →
        webContextOf query lang newsR wikiR webR = "") ∧
      (formatSearchResults
          ((chosenResults query newsR wikiR webR).map truncateSnippet) lang =
        formatSearchResults (chosenResults query newsR wikiR webR) lang) := by
  intro query lang newsR wikiR webR
  refine ⟨?_, ?_, ?_, ?_, ?_, ?_⟩
  · intro hn
    simp [chosenResults, searchChoice, hn]
  · intro hn hk
    simp [chosenResults, searchChoice, hn, hk]
  · intro hn hk hw
    simp [chosenResults, searchChoice, hn, hk, hw]
  · intro h5n h1w h5w
    unfold chosenResults
    cases hc : searchChoice query
    · exact h5n
    · by_cases hw : wikiR = []
      · simpa [hw] using h5w
      · simp only [if_neg hw]
        omega
    · exact h5w
    · simp
  · intro hempty
    unfold webContextOf
    simp [hempty]
  · exact formatSearchResults_truncate _ lang

/-- C7 witness: a news query routes to the news adapter and its two
results (each under the caps) produce a block unchanged by snippet
truncation. -/
theorem searchStrategy_spec_witness :
    isNewsQuery "latest news on cricket" = true ∧
    chosenResults "latest news on cricket"
        [SearchResult.mk "t" "s" "u" "d" "News"] [] [] =
      [SearchResult.mk "t" "s" "u" "d" "News"] :=
  ⟨by decide,
   (searchStrategy_spec "latest news on cricket" "en"
      [SearchResult.mk "t" "s" "u" "d" "News"] [] []).1 (by decide)⟩

/-- C8 counterexample.  The utterance "what do you see, stop" satisfies the
vision predicate, yet it is dispatched to the exit branch: the main loop
checks exit/reset/identity BEFORE `generate_response` ever runs its vision
check, so the claimed priority order (vision → desktop → exit/reset/identity
→ LLM) does not hold. -/
theorem dispatch_priority_counterexample :
    needsVision "what do you see, stop" = true ∧
    mainDispatch "what do you see, stop" = Intent.exitCmd ∧
    Intent.exitCmd ≠ Intent.vision := by
  refine ⟨by decide, by decide, by decide⟩

/-- C8 as amended.  The router evaluates its predicate categories in the
fixed priority order identity → exit → reset (in the main loop) → vision →
desktop → web-augmented LLM chat (in `generate_response`), dispatches every
utterance to exactly one category, and short-circuits at the first category
whose predicate is true; in particular an utterance matching both the
vision predicate and a desktop keyword, but none of the three control
predicates, is handled by the vision branch only. -/
theorem dispatch_priority_order :
    ∀ text : String,
      (mainDispatch text = Intent.identity ↔ isIdentityQuestion text = true) ∧
      (mainDispatch text = Intent.exitCmd ↔
        (isIdentityQuestion text = false ∧ isExitCommand text = true)) ∧
      (mainDispatch text = Intent.resetCmd ↔
        (isIdentityQuestion text = false ∧ isExitCommand text = false ∧
         isResetCommand text = true)) ∧
      (mainDispatch text = Intent.vision ↔
        (isIdentityQuestion text = false ∧ isExitCommand text = false ∧
         isResetCommand text = false ∧ needsVision text = true)) ∧
      (mainDispatch text = Intent.desktop ↔
        (isIdentityQuestion text = false ∧ isExitCommand text = false ∧
         isResetCommand text = false ∧ needsVision text = false ∧
         desktopMatched (normalizeCmd text) = true)) ∧
      (mainDispatch text = Intent.chat ↔
        (isIdentityQuestion text = false ∧ isExitCommand text = false ∧
         isResetCommand text = false ∧ needsVision text = false ∧
         desktopMatched (normalizeCmd text) = false)) := by
  intro text
  unfold mainDispatch routerDispatch
  cases h1 : isIdentityQuestion text <;>
    cases h2 : isExitCommand text <;>
      cases h3 : isResetCommand text <;>
        cases h4 : needsVision text <;>
          cases h5 : desktopMatched (normalizeCmd text) <;>
            simp

/-- C9.  The vision-question generator is a pure function equal to a
top-to-bottom, first-match lookup in the prioritized trigger table: the
first entry one of whose trigger phrases occurs in the lowercased utterance
supplies the specialized prompt; when no entry matches but the
whitespace-stripped utterance starts (case-insensitively) with a recognized
English/Hindi/Gujarati question word, the stripped utterance itself is
forwarded inside the "Answer this question about the image:" wrapper;
otherwise the generic describe-everything prompt is returned. -/
theorem genVisionQuestion_is_table_lookup :
    ∀ command : String, genVisionQuestion command = visionQuestionSpec command := by
  intro command
  unfold genVisionQuestion visionQuestionSpec
  dsimp only [visionQTable, findPrompt, fallbackQuestionWords]
  cases h1 : anyIn ["time", "clock", "watch", "समय", "घड़ी", "સમય", "ઘડિયાળ"] (lowerS command)
  · cases h2 : anyIn ["how many people", "how many person", "कितने लोग", "કેટલા લોકો"] (lowerS command)
    · cases h3 : anyIn ["who is", "who are", "कौन है", "કોણ છે"] (lowerS command)
      · cases h4 : anyIn ["how many object", "count", "कितने", "કેટલા"] (lowerS command)
        · cases h5 : anyIn ["what color", "what colour", "रंग", "રંગ"] (lowerS command)
          · cases h6 : anyIn ["where am i", "what room", "what place", "कहाँ", "ક્યાં"] (lowerS command)
            · cases h7 : anyIn ["read", "text", "written", "पढ़", "लिखा", "વાંચ", "લખ્યું"] (lowerS command)
              · cases h8 : anyIn ["what is this", "what is on", "what is in"] (lowerS command)
                · cases h9 : anyIn ["weather", "temperature", "मौसम", "હવામાન"] (lowerS command)
                  · cases h10 : anyIn ["price", "cost", "how much", "कीमत", "કિંમત"] (lowerS command)
                    · cases h11 : anyIn ["screen", "monitor", "display", "phone", "स्क्रीन", "સ્ક્રીન"] (lowerS command)
                      · cases h12 : anyIn ["sign", "label", "साइन", "લેબલ"] (lowerS command)
                        · cases h13 : anyIn ["what do you see", "what can you see", "describe",
                               "दिख रहा", "देख रहा", "જુઓ છો"] (lowerS command)
                          · rfl
                          · rfl
                        · rfl
                      · rfl
                    · rfl
                  · rfl
                · rfl
              · rfl
            · rfl
          · rfl
        · rfl
      · rfl
    · rfl
  · rfl

/-- The vision branch performs only camera and (for translation) LLM
calls — never a search-adapter call. -/
theorem processVision_no_search_calls (language : String) (s : AssistantState)
    (o : Oracles) (now : Nat) :
    ((processVisionCommand language s o now).2.2.all
      (fun c => c != AdapterCall.newsSearchCall &&
                c != AdapterCall.wikipediaCall &&
                c != AdapterCall.webSearchCall)) = true := by
  unfold processVisionCommand
  cases hv : o.visionDesc
  · rfl
  · dsimp only
    split_ifs <;> rfl

/-- C10.  The vision trigger table contains the bare phrases "क्या है"
(Hindi "what is") and "શું છે" (Gujarati "what is"): any utterance whose
lowercased text contains either substring satisfies the needs-vision
predicate, and since `generate_response` checks vision first, such an
utterance — including a purely factual knowledge question — is dispatched
to the camera/vision handler and its turn performs no encyclopedia or web
search call. -/
theorem hindi_gujarati_whatIs_routed_to_vision :
    ∀ text : String,
      (pyIn "क्या है" (lowerS text) = true ∨ pyIn "શું છે" (lowerS text) = true) →
      needsVision text = true ∧ routerDispatch text = Intent.vision ∧
      ∀ (language : String) (s : AssistantState) (o : Oracles) (now : Nat),
        ((generateResponseFull text language s o now).2.2.all
          (fun c => c != AdapterCall.newsSearchCall &&
                    c != AdapterCall.wikipediaCall &&
                    c != AdapterCall.webSearchCall)) = true := by
  intro text h
  have hNV : needsVision text = true := by
    have hx : anyIn explicitVisionTriggers (lowerS text) = true := by
      rcases h with h | h
      · exact List.any_eq_true.mpr ⟨"क्या है", by decide, h⟩
      · exact List.any_eq_true.mpr ⟨"શું છે", by decide, h⟩
    unfold needsVision
    simp [hx]
  refine ⟨hNV, ?_, ?_⟩
  · unfold routerDispatch
    simp [hNV]
  · intro language s o now
    simpa [generateResponseFull, hNV] using
      processVision_no_search_calls language
        { s with currentLanguage := language } o now

/-- C10 witness: the factual Hindi question "क्या है ब्रह्मांड" ("what is
the universe") is routed to the vision branch. -/
theorem hindi_gujarati_whatIs_routed_to_vision_witness :
    (pyIn "क्या है" (lowerS "क्या है ब्रह्मांड") = true ∨
      pyIn "શું છે" (lowerS "क्या है ब्रह्मांड") = true) ∧
    needsVision "क्या है ब्रह्मांड" = true ∧
    routerDispatch "क्या है ब्रह्मांड" = Intent.vision :=
  ⟨Or.inl (by decide),
   (hindi_gujarati_whatIs_routed_to_vision "क्या है ब्रह्मांड"
      (Or.inl (by decide))).1,
   (hindi_gujarati_whatIs_routed_to_vision "क्या है ब्रह्मांड"
      (Or.inl (by decide))).2.1⟩
